import Mathlib

set_option maxRecDepth 100000

/-!
Verification development for the United Airlines fare-extraction routine
(`united_data.py`, class `UnitedFlightScraper`).  The extraction pipeline is
embedded shallowly: pages and flight cards become explicit data, Selenium and
BeautifulSoup lookups become association-list lookups, and every regular
expression used by the scraper is implemented as a dedicated matcher with the
same backtracking behaviour as Python's `re` module on that pattern.
-/

namespace UnitedData

/-! ### Python string primitives -/

/-- ASCII whitespace recognised by Python's regex class backslash-s and by
`str.strip`. -/
def pyIsSpace (c : Char) : Bool :=
  c == ' ' || c == '\t' || c == '\n' || c == '\x0b' || c == '\x0c' || c == '\r'

/-- Python `str.strip()`: drop whitespace from both ends. -/
def pyStrip (s : String) : String :=
  String.mk (((s.toList.dropWhile pyIsSpace).reverse.dropWhile pyIsSpace).reverse)

/-- Python `str.lower()` restricted to ASCII case mapping. -/
def pyLower (s : String) : String :=
  String.mk (s.toList.map Char.toLower)

/-- Does `needle` occur at the head of the second list? -/
def startsWithList : List Char → List Char → Bool
  | [], _ => true
  | _ :: _, [] => false
  | a :: as, b :: bs => a == b && startsWithList as bs

/-- Does `needle` occur anywhere in the list?  Python's `needle in hay`. -/
def subListOccurs (needle : List Char) : List Char → Bool
  | [] => startsWithList needle []
  | c :: rest => startsWithList needle (c :: rest) || subListOccurs needle rest

/-- Python `needle in hay` on strings. -/
def containsStr (hay needle : String) : Bool :=
  subListOccurs needle.toList hay.toList

/-- Python `c in s` for a single character. -/
def containsChar (s : String) (c : Char) : Bool := s.toList.contains c

/-- Python truthiness of an optional string (`None` and `""` are falsy). -/
def pyFalsy : Option String → Bool
  | none => true
  | some s => s.isEmpty

/-! ### Regex matchers

Each matcher takes the character list at a candidate match position and
returns the matched characters together with the rest of the input, following
the greedy/backtracking semantics of the concrete Python pattern. -/

/-- Maximal run of characters in the class `[0-9,]` (regex `[\d,]+` body). -/
def takeDigitsCommas : List Char → List Char × List Char
  | [] => ([], [])
  | c :: rest =>
    if c.isDigit || c == ',' then
      let p := takeDigitsCommas rest
      (c :: p.1, p.2)
    else ([], c :: rest)

/-- Maximal run of decimal digits (regex `\d+` / `\d*` body). -/
def digitsRun : List Char → List Char × List Char
  | [] => ([], [])
  | c :: rest =>
    if c.isDigit then
      let p := digitsRun rest
      (c :: p.1, p.2)
    else ([], c :: rest)

/-- The group `(?:AM|PM|am|pm)` of the time pattern (case-sensitive
alternation, exactly these four spellings). -/
def matchAmPm : List Char → Option (List Char × List Char)
  | a :: b :: rest =>
    if (a == 'A' && b == 'M') || (a == 'P' && b == 'M') ||
       (a == 'a' && b == 'm') || (a == 'p' && b == 'm') then
      some ([a, b], rest)
    else none
  | _ => none

/-- Tail of the time pattern after the leading digits: matches
`:\d{2}\s?(?:AM|PM|am|pm)?` with the greedy optional space and meridiem. -/
def timeTail : List Char → Option (List Char × List Char)
  | ':' :: d1 :: d2 :: rest =>
    if d1.isDigit && d2.isDigit then
      match rest with
      | c :: rest2 =>
        if pyIsSpace c then
          match matchAmPm rest2 with
          | some (ap, r) => some (':' :: d1 :: d2 :: c :: ap, r)
          | none => some ([':', d1, d2, c], rest2)
        else
          match matchAmPm rest with
          | some (ap, r) => some (':' :: d1 :: d2 :: ap, r)
          | none => some ([':', d1, d2], rest)
      | [] => some ([':', d1, d2], [])
    else none
  | _ => none

/-- Card time pattern `(\d{1,2}:\d{2}\s?(?:AM|PM|am|pm)?)` tried at one
position: the `\d{1,2}` quantifier is greedy and backtracks from two digits to
one. -/
def timeMatchAt : List Char → Option (List Char × List Char)
  | [] => none
  | d1 :: rest1 =>
    if d1.isDigit then
      match rest1 with
      | d2 :: rest2 =>
        if d2.isDigit then
          match timeTail rest2 with
          | some (m, r) => some (d1 :: d2 :: m, r)
          | none =>
            match timeTail rest1 with
            | some (m, r) => some (d1 :: m, r)
            | none => none
        else
          match timeTail rest1 with
          | some (m, r) => some (d1 :: m, r)
          | none => none
      | [] => none
    else none

/-- Card USD price pattern `\$[\d,]+(?:\.\d{2})?` tried at one position. -/
def usdMatchAt : List Char → Option (List Char × List Char)
  | [] => none
  | c :: rest =>
    if c == '$' then
      let p := takeDigitsCommas rest
      if p.1.isEmpty then none
      else
        match p.2 with
        | '.' :: a :: b :: r2 =>
          if a.isDigit && b.isDigit then some ('$' :: p.1 ++ ['.', a, b], r2)
          else some ('$' :: p.1, p.2)
        | _ => some ('$' :: p.1, p.2)
    else none

/-- Case-insensitive literal word match; `w` is given in lowercase. -/
def matchWordCI : List Char → List Char → Option (List Char × List Char)
  | [], rest => some ([], rest)
  | _ :: _, [] => none
  | w :: ws, c :: rest =>
    if c.toLower == w then
      match matchWordCI ws rest with
      | some (m, r) => some (c :: m, r)
      | none => none
    else none

/-- The suffix alternation `(?:miles|points|pts)` of the miles pattern,
matched case-insensitively in the pattern's alternation order. -/
def milesSuffix (cs : List Char) : Option (List Char × List Char) :=
  match matchWordCI "miles".toList cs with
  | some x => some x
  | none =>
    match matchWordCI "points".toList cs with
    | some x => some x
    | none => matchWordCI "pts".toList cs

/-- Card miles price pattern `[\d,]+\s?(?:miles|points|pts)` (IGNORECASE)
tried at one position. -/
def milesMatchAt (cs : List Char) : Option (List Char × List Char) :=
  let p := takeDigitsCommas cs
  if p.1.isEmpty then none
  else
    match p.2 with
    | c :: r2 =>
      if pyIsSpace c then
        match milesSuffix r2 with
        | some (m, r) => some (p.1 ++ c :: m, r)
        | none => none
      else
        match milesSuffix p.2 with
        | some (m, r) => some (p.1 ++ m, r)
        | none => none
    | [] => none

/-- First alternative `\d+h\s?\d*m?` of the duration pattern. -/
def durAlt1 (cs : List Char) : Option (List Char × List Char) :=
  let p := digitsRun cs
  if p.1.isEmpty then none
  else
    match p.2 with
    | 'h' :: r2 =>
      let sp : List Char × List Char :=
        match r2 with
        | c :: r3 => if pyIsSpace c then ([c], r3) else ([], r2)
        | [] => ([], [])
      let q := digitsRun sp.2
      let mm : List Char × List Char :=
        match q.2 with
        | 'm' :: r5 => (['m'], r5)
        | _ => ([], q.2)
      some (p.1 ++ 'h' :: sp.1 ++ q.1 ++ mm.1, mm.2)
    | _ => none

/-- Second alternative `\d+:\d+` of the duration pattern. -/
def durAlt2 (cs : List Char) : Option (List Char × List Char) :=
  let p := digitsRun cs
  if p.1.isEmpty then none
  else
    match p.2 with
    | ':' :: r2 =>
      let q := digitsRun r2
      if q.1.isEmpty then none else some (p.1 ++ ':' :: q.1, q.2)
    | _ => none

/-- Duration pattern `(\d+h\s?\d*m?|\d+:\d+)` tried at one position, in the
pattern's alternation order. -/
def durMatchAt (cs : List Char) : Option (List Char × List Char) :=
  match durAlt1 cs with
  | some x => some x
  | none => durAlt2 cs

/-- Tail `\s?(\d+)` of the flight-number pattern; returns capture group 1. -/
def flightNumTail : List Char → Option (List Char)
  | [] => none
  | c :: r2 =>
    if pyIsSpace c then
      let p := digitsRun r2
      if p.1.isEmpty then none else some p.1
    else
      let p := digitsRun (c :: r2)
      if p.1.isEmpty then none else some p.1

/-- Flight-number pattern `(?:UA|United)\s?(\d+)` (IGNORECASE) tried at one
position, alternatives in pattern order; yields capture group 1. -/
def flightNumAt (cs : List Char) : Option (List Char) :=
  match matchWordCI "ua".toList cs with
  | some (_, r1) =>
    match flightNumTail r1 with
    | some g => some g
    | none =>
      match matchWordCI "united".toList cs with
      | some (_, r1b) => flightNumTail r1b
      | none => none
  | none =>
    match matchWordCI "united".toList cs with
    | some (_, r1) => flightNumTail r1
    | none => none

/-- `re.findall` driver: scan left to right, take the leftmost non-overlapping
matches, resume after each match.  The fuel argument (initialised with the
input length) only bounds the recursion; every pattern used here consumes at
least one character per match, so the fuel is never exhausted early. -/
def scanAllFuel (matchAt : List Char → Option (List Char × List Char)) :
    Nat → List Char → List (List Char)
  | 0, _ => []
  | _ + 1, [] => []
  | fuel + 1, c :: rest =>
    match matchAt (c :: rest) with
    | some (m, r) => m :: scanAllFuel matchAt fuel r
    | none => scanAllFuel matchAt fuel rest

/-- `re.findall` for one of the matchers above. -/
def scanAll (matchAt : List Char → Option (List Char × List Char))
    (s : List Char) : List (List Char) :=
  scanAllFuel matchAt s.length s

/-- `re.search` driver: first position at which the matcher succeeds. -/
def searchFirst (matchAt : List Char → Option (List Char × List Char)) :
    List Char → Option (List Char)
  | [] => none
  | c :: rest =>
    match matchAt (c :: rest) with
    | some (m, _) => some m
    | none => searchFirst matchAt rest

/-- `re.search` driver for a matcher that returns a capture group. -/
def searchGroup (matchAt : List Char → Option (List Char)) :
    List Char → Option (List Char)
  | [] => none
  | c :: rest =>
    match matchAt (c :: rest) with
    | some g => some g
    | none => searchGroup matchAt rest

/-- `re.findall(time_pattern, s)` of `_parse_flight_card_flexible`. -/
def findallTimes (s : String) : List String :=
  (scanAll timeMatchAt s.toList).map String.mk

/-- `re.findall(price_usd_pattern, s)` of `_parse_flight_card_flexible`. -/
def findallUsd (s : String) : List String :=
  (scanAll usdMatchAt s.toList).map String.mk

/-- `re.findall(price_miles_pattern, s, re.IGNORECASE)`. -/
def findallMiles (s : String) : List String :=
  (scanAll milesMatchAt s.toList).map String.mk

/-- `re.search(duration_pattern, s)`, group 1 (the whole alternation). -/
def searchDuration (s : String) : Option String :=
  (searchFirst durMatchAt s.toList).map String.mk

/-- `re.search(flight_num_pattern, s, re.IGNORECASE)` followed by the
formatting `f"UA {group(1)}"`. -/
def searchFlightNum (s : String) : Option String :=
  (searchGroup flightNumAt s.toList).map (fun g => "UA " ++ String.mk g)

/-! ### Node-level patterns of `_parse_html_content`

`soup.find_all(text=re.compile(p))` keeps the text nodes on which `p`
*searches* successfully; these are the search predicates for the three node
patterns. -/

/-- Does `\$\d+` match somewhere in the node text? -/
def hasPriceNode : List Char → Bool
  | [] => false
  | '$' :: c :: rest => if c.isDigit then true else hasPriceNode (c :: rest)
  | _ :: rest => hasPriceNode rest

/-- Does `\d{1,2}:\d{2}` match at this position (with `\d{1,2}` backtracking)? -/
def timeCoreAt : List Char → Bool
  | [] => false
  | d1 :: rest =>
    d1.isDigit &&
      (match rest with
       | d2 :: rest2 =>
         (d2.isDigit && (match rest2 with
            | ':' :: a :: b :: _ => a.isDigit && b.isDigit
            | _ => false)) ||
         (match rest with
            | ':' :: a :: b :: _ => a.isDigit && b.isDigit
            | _ => false)
       | [] => false)

/-- Does `\d{1,2}:\d{2}` match somewhere in the node text? -/
def hasTimeNode : List Char → Bool
  | [] => false
  | c :: rest => timeCoreAt (c :: rest) || hasTimeNode rest

/-- Does `UA\s?\d+` (case-sensitive) match at this position? -/
def uaNumAt : List Char → Bool
  | 'U' :: 'A' :: rest =>
    (match rest with
     | c :: rest2 =>
       (pyIsSpace c && (match rest2 with
          | d :: _ => d.isDigit
          | [] => false)) ||
       c.isDigit
     | [] => false)
  | _ => false

/-- Does `UA\s?\d+` match somewhere in the node text? -/
def hasFlightNumNode : List Char → Bool
  | [] => false
  | c :: rest => uaNumAt (c :: rest) || hasFlightNumNode rest

/-! ### Data model -/

/-- A flight card element: its visible text (`element.text`) plus the element
texts returned by `find_elements(By.CSS_SELECTOR, sel)` for each sub-selector,
as an association list (absent selector = no matches). -/
structure Card where
  text : String
  sub : List (String × List String)
deriving DecidableEq, Repr

/-- A loaded results page: for each card selector, the matching cards in
document order. -/
structure Page where
  dom : List (String × List Card)
deriving DecidableEq, Repr

/-- Association-list lookup returning `[]` for an absent key, the behaviour of
`find_elements` with a selector that matches nothing. -/
def lookupOrNil {α : Type} (m : List (String × List α)) (k : String) : List α :=
  match m.find? (fun kv => kv.1 == k) with
  | some kv => kv.2
  | none => []

/-- `flight_element.find_elements(By.CSS_SELECTOR, sel)` texts. -/
def findElems (c : Card) (sel : String) : List String := lookupOrNil c.sub sel

/-- `driver`-level `presence_of_all_elements_located(sel)` results. -/
def findCards (p : Page) (sel : String) : List Card := lookupOrNil p.dom sel

/-- One parsed flight record, the dict built by `_parse_flight_card_flexible`
(field names as in the source). -/
structure FlightInfo where
  direction : String
  airline : String
  departure_time : Option String
  arrival_time : Option String
  duration : Option String
  stops : Option String
  price_usd : Option String
  price_miles : Option String
  cabin_class : Option String
  flight_number : Option String
  raw_text : String
deriving DecidableEq, Repr

/-- The dict built by `_extract_flight_data` (`return` is a Lean keyword, so
the `return` key is called `ret`; `method` is `none` because this dict never
carries a `method` key). -/
structure SearchResult where
  outbound : List FlightInfo
  ret : List FlightInfo
  search_date : String
  route : String
  method : Option String
deriving DecidableEq, Repr

/-- One record built by the requests-fallback HTML parse (different key set
from the card records, as in the source). -/
structure FallbackFlight where
  direction : String
  airline : String
  price_usd : Option String
  departure_time : Option String
  arrival_time : Option String
  method : String
deriving DecidableEq, Repr

/-- The dict built by `_parse_html_content`; the `raw_*` keys are only added
when the corresponding node lists are non-empty, hence `Option`. -/
structure FallbackResult where
  outbound : List FallbackFlight
  ret : List FallbackFlight
  search_date : String
  route : String
  method : String
  raw_prices : Option (List String)
  raw_times : Option (List String)
  raw_flight_numbers : Option (List String)
deriving DecidableEq, Repr

/-! ### Card parsing (`_parse_flight_card_flexible`) -/

/-- CSS selectors tried in order for flight cards in `_extract_flight_data`. -/
def flightCardSelectors : List String :=
  ["[data-testid=\x27flight-card\x27]", ".flight-card", ".flight-result",
   ".flight-option", ".search-result-item", ".flight-details",
   "[class*=\x27flight\x27][class*=\x27card\x27]", "[class*=\x27flight-row\x27]"]

/-- Time sub-selectors tried in order inside one card. -/
def timeSelectors : List String :=
  ["[data-testid*=\x27time\x27]", ".time", ".departure-time", ".arrival-time"]

/-- Price sub-selectors iterated (without break) inside one card. -/
def priceSelectors : List String :=
  ["[data-testid*=\x27price\x27]", ".price", ".fare", ".cost"]

/-- The `stops` determination: ordered substring tests on the lowered text. -/
def stopsOf (t : String) : Option String :=
  let low := pyLower t
  if containsStr low "nonstop" || containsStr low "non-stop" then some "Nonstop"
  else if containsStr low "1 stop" then some "1 stop"
  else if containsStr low "2 stop" then some "2 stops"
  else none

/-- The textual-pattern pass of `_parse_flight_card_flexible`: the record as
populated from regex matches over the card's whole text.  Each field is set
exactly under the source's guard and left `none` otherwise. -/
def textualPass (c : Card) (direction : String) : FlightInfo :=
  let t := c.text
  let times := findallTimes t
  let usd := findallUsd t
  let miles := findallMiles t
  { direction := direction
    airline := "United Airlines"
    departure_time := if times.length ≥ 2 then times.get? 0 else none
    arrival_time := if times.length ≥ 2 then times.get? 1 else none
    duration := searchDuration t
    stops := stopsOf t
    price_usd := if usd.isEmpty then none else usd.get? 0
    price_miles := if miles.isEmpty then none else miles.get? 0
    cabin_class := none
    flight_number := searchFlightNum t
    raw_text := t }

/-- The time sub-selector cascade: first selector returning at least two
elements yields the stripped first two texts, then the loop breaks. -/
def timeSelCascade (c : Card) : List String → Option (String × String)
  | [] => none
  | s :: rest =>
    match findElems c s with
    | e1 :: e2 :: _ => some (pyStrip e1, pyStrip e2)
    | _ => timeSelCascade c rest

/-- Overwrite the two time fields when some time sub-selector matched. -/
def applyTimeSubs (c : Card) (fi : FlightInfo) : FlightInfo :=
  match timeSelCascade c timeSelectors with
  | some da => { fi with departure_time := some da.1, arrival_time := some da.2 }
  | none => fi

/-- One step of the price sub-element loop: fill `price_usd` / `price_miles`
only when the field is still falsy. -/
def priceElemStep (fi : FlightInfo) (t : String) : FlightInfo :=
  let pt := pyStrip t
  if containsChar pt '$' && pyFalsy fi.price_usd then
    { fi with price_usd := some pt }
  else if (containsStr (pyLower pt) "miles" || containsStr (pyLower pt) "points")
          && pyFalsy fi.price_miles then
    { fi with price_miles := some pt }
  else fi

/-- The price sub-selector loops (all selectors, all elements, no break). -/
def applyPriceSubs (c : Card) (fi : FlightInfo) : FlightInfo :=
  priceSelectors.foldl (fun acc s => (findElems c s).foldl priceElemStep acc) fi

/-- `_parse_flight_card_flexible`: textual pass, then the structural time and
price sub-selector passes. -/
def parseFlightCardFlexible (c : Card) (direction : String) : FlightInfo :=
  applyPriceSubs c (applyTimeSubs c (textualPass c direction))

/-! ### Structural extraction (`_extract_flight_data`) -/

/-- The selector cascade: first selector whose element list is non-empty. -/
def selectFirst (p : Page) : List String → List Card
  | [] => []
  | s :: rest =>
    let es := findCards p s
    if es.isEmpty then selectFirst p rest else es

/-- The enumeration loop over `flight_elements[:20]`: index `i < 10` goes to
`outbound` (and is parsed with direction `outbound`), the rest to `return`. -/
def classifyCards : Nat → List Card → List FlightInfo × List FlightInfo
  | _, [] => ([], [])
  | i, c :: rest =>
    let info := parseFlightCardFlexible c (if i < 10 then "outbound" else "return")
    let r := classifyCards (i + 1) rest
    if i < 10 then (info :: r.1, r.2) else (r.1, info :: r.2)

/-- `_extract_flight_data`: build the result dict from the first matching
selector's cards, capped at 20, split at index 10. -/
def extractFlightData (p : Page) (now : String) : SearchResult :=
  let cards := (selectFirst p flightCardSelectors).take 20
  let c := classifyCards 0 cards
  { outbound := c.1, ret := c.2, search_date := now, route := "SFO-LAX",
    method := none }

/-! ### Requests fallback (`_parse_html_content`, `_fallback_requests_method`) -/

/-- Text nodes kept by `find_all(text=re.compile(r'\$\d+'))`. -/
def fallbackPrices (nodes : List String) : List String :=
  nodes.filter (fun s => hasPriceNode s.toList)

/-- Text nodes kept by `find_all(text=re.compile(r'\d{1,2}:\d{2}'))`. -/
def fallbackTimes (nodes : List String) : List String :=
  nodes.filter (fun s => hasTimeNode s.toList)

/-- Text nodes kept by `find_all(text=re.compile(r'UA\s?\d+'))`. -/
def fallbackFnums (nodes : List String) : List String :=
  nodes.filter (fun s => hasFlightNumNode s.toList)

/-- The flight dict built at loop index `i`; the bounds-guarded indexings
`xs[i] if i < len(xs) else None` are `List.get?`. -/
def fallbackFlightAt (prices times : List String) (i : Nat) : FallbackFlight :=
  { direction := if i < prices.length / 2 then "outbound" else "return"
    airline := "United Airlines"
    price_usd := prices.get? i
    departure_time := times.get? (i * 2)
    arrival_time := times.get? (i * 2 + 1)
    method := "html_parsing" }

/-- The construction loop `for i in range(min(len(prices), len(times)//2))`,
appending to `outbound` when `i < len(prices)//2` and to `return` otherwise. -/
def fallbackBuild (prices times : List String) :
    List FallbackFlight × List FallbackFlight :=
  let n := min prices.length (times.length / 2)
  let idx := List.range n
  ((idx.filter (fun i => decide (i < prices.length / 2))).map
      (fallbackFlightAt prices times),
   (idx.filter (fun i => !decide (i < prices.length / 2))).map
      (fallbackFlightAt prices times))

/-- The two record lists built by `_parse_html_content` (empty unless both the
price and the time node lists are non-empty). -/
def fallbackBuilt (nodes : List String) :
    List FallbackFlight × List FallbackFlight :=
  if !(fallbackPrices nodes).isEmpty && !(fallbackTimes nodes).isEmpty then
    fallbackBuild (fallbackPrices nodes) (fallbackTimes nodes)
  else ([], [])

/-- The final truthiness test `flights['outbound'] or flights['return']` of
`_parse_html_content`. -/
def fallbackHasData (nodes : List String) : Bool :=
  !(fallbackBuilt nodes).1.isEmpty || !(fallbackBuilt nodes).2.isEmpty

/-- The flights dict assembled by `_parse_html_content` before its final
truthiness test. -/
def mkFallbackResult (nodes : List String) (now : String) : FallbackResult :=
  { outbound := (fallbackBuilt nodes).1, ret := (fallbackBuilt nodes).2,
    search_date := now, route := "SFO-LAX", method := "requests_fallback",
    raw_prices := if (fallbackPrices nodes).isEmpty then none
                  else some ((fallbackPrices nodes).take 10),
    raw_times := if (fallbackTimes nodes).isEmpty then none
                 else some ((fallbackTimes nodes).take 20),
    raw_flight_numbers := if (fallbackFnums nodes).isEmpty then none
                          else some (fallbackFnums nodes) }

/-- `_parse_html_content`: returns the flights dict when at least one record
was built, and `None` otherwise. -/
def parseHtmlContent (nodes : List String) (now : String) :
    Option FallbackResult :=
  if fallbackHasData nodes then some (mkFallbackResult nodes now) else none

/-- Outcome of the HTTP fetch inside `_fallback_requests_method`: a 200
response with the given text nodes, a non-200 status, or a raised error. -/
inductive FetchOutcome where
  | ok (nodes : List String)
  | httpError
  | exn
deriving DecidableEq, Repr

/-- Outcome of `search_flights` as seen by its caller: the structural-path
dict, the fallback dict, or Python `None`. -/
inductive SearchOutcome where
  | structured (r : SearchResult)
  | fallback (r : FallbackResult)
  | noData
deriving DecidableEq, Repr

/-- `_fallback_requests_method`: parse on HTTP 200, `None` on a non-200
status or on an exception of its own. -/
def fallbackRequestsMethod (f : FetchOutcome) (now : String) : SearchOutcome :=
  match f with
  | .ok nodes =>
    match parseHtmlContent nodes now with
    | some r => .fallback r
    | none => .noData
  | .httpError => .noData
  | .exn => .noData

/-- `search_flights`: the browser path when page acquisition succeeds
(`browserOk`), otherwise the one-shot requests fallback. -/
def searchFlights (browserOk : Bool) (p : Page) (f : FetchOutcome)
    (now : String) : SearchOutcome :=
  if browserOk then .structured (extractFlightData p now)
  else fallbackRequestsMethod f now

/-! ### Concrete inputs used by witnesses and counterexamples -/

/-- The card of the spec's worked example. -/
def cardC7 : Card := ⟨"6:00 AM 9:15 AM $245 UA 123 Nonstop", []⟩

/-- A page whose second card selector matches exactly the example card. -/
def pageC7 : Page := ⟨[(".flight-card", [cardC7])]⟩

/-- A card with no text and no sub-elements. -/
def card0 : Card := ⟨"", []⟩

/-- A page with exactly 10 matched flight cards. -/
def page10 : Page := ⟨[(".flight-card", List.replicate 10 card0)]⟩

/-- A page with exactly 11 matched flight cards. -/
def page11 : Page := ⟨[(".flight-card", List.replicate 11 card0)]⟩

/-- A page on which every selector matches nothing. -/
def pageEmpty : Page := ⟨[]⟩

/-- A card where both the textual patterns and the structural sub-selectors
yield time and price values. -/
def cardW5 : Card :=
  ⟨"1:00 2:00 $245", [(".time", ["3:00 ", " 4:00"]), (".price", ["$999"])]⟩

/-- A card whose text contains exactly one time and no sub-elements. -/
def cardW10 : Card := ⟨"9:15 AM", []⟩

/-- Text nodes with 21 price nodes and 42 time nodes. -/
def nodesBig : List String :=
  List.replicate 21 "$5" ++ List.replicate 42 "1:23"

/-- Text nodes yielding one fallback record (on the return side). -/
def nodesSmall : List String := ["$5", "1:23", "4:56"]

/-- Text nodes yielding one fallback record on the outbound side. -/
def nodesOut : List String := ["$5", "$6", "1:23", "4:56"]

/-! ### Helper lemmas -/

theorem filterLengthSplit {α : Type} (p : α → Bool) :
    ∀ l : List α,
      (l.filter p).length + (l.filter (fun a => !p a)).length = l.length := by
  intro l
  induction l with
  | nil => simp
  | cons a l ih =>
    cases h : p a <;> simp [List.filter_cons, h] <;> omega

theorem isEmptyFalseIff {α : Type} (l : List α) :
    l.isEmpty = false ↔ l.length ≠ 0 := by
  cases l <;> simp

/-- The classification loop splits its input at absolute index 10: entries
before it are parsed and collected as outbound, the rest as return. -/
theorem classifyCards_eq : ∀ (cs : List Card) (i : Nat),
    classifyCards i cs
      = ((cs.take (10 - i)).map (fun c => parseFlightCardFlexible c "outbound"),
         (cs.drop (10 - i)).map (fun c => parseFlightCardFlexible c "return")) := by
  intro cs
  induction cs with
  | nil => intro i; simp [classifyCards]
  | cons c rest ih =>
    intro i
    by_cases h : i < 10
    · have h1 : 10 - i = (10 - (i + 1)) + 1 := by omega
      simp only [classifyCards, if_pos h, ih (i + 1), h1, List.take_succ_cons,
        List.drop_succ_cons, List.map_cons]
    · have h1 : 10 - i = 0 := by omega
      have h2 : 10 - (i + 1) = 0 := by omega
      simp only [classifyCards, if_neg h, ih (i + 1), h1, h2, List.take_zero,
        List.drop_zero, List.map_cons, List.map_nil]

theorem extract_outbound (p : Page) (now : String) :
    (extractFlightData p now).outbound
      = (((selectFirst p flightCardSelectors).take 20).take 10).map
          (fun c => parseFlightCardFlexible c "outbound") := by
  simp [extractFlightData, classifyCards_eq]

theorem extract_ret (p : Page) (now : String) :
    (extractFlightData p now).ret
      = (((selectFirst p flightCardSelectors).take 20).drop 10).map
          (fun c => parseFlightCardFlexible c "return") := by
  simp [extractFlightData, classifyCards_eq]

theorem priceElemStep_direction (fi : FlightInfo) (t : String) :
    (priceElemStep fi t).direction = fi.direction := by
  simp only [priceElemStep]
  split
  · rfl
  · split <;> rfl

theorem priceElemStep_dep (fi : FlightInfo) (t : String) :
    (priceElemStep fi t).departure_time = fi.departure_time := by
  simp only [priceElemStep]
  split
  · rfl
  · split <;> rfl

theorem priceElemStep_arr (fi : FlightInfo) (t : String) :
    (priceElemStep fi t).arrival_time = fi.arrival_time := by
  simp only [priceElemStep]
  split
  · rfl
  · split <;> rfl

theorem priceElemStep_usd_keep (fi : FlightInfo) (t : String)
    (h : pyFalsy fi.price_usd = false) :
    (priceElemStep fi t).price_usd = fi.price_usd := by
  simp only [priceElemStep]
  split
  · rename_i hc
    rw [h, Bool.and_false] at hc
    exact absurd hc (by simp)
  · split <;> rfl

theorem foldlPrice_direction : ∀ (l : List String) (fi : FlightInfo),
    (l.foldl priceElemStep fi).direction = fi.direction := by
  intro l
  induction l with
  | nil => intro fi; rfl
  | cons a l ih => intro fi; rw [List.foldl_cons, ih, priceElemStep_direction]

theorem foldlPrice_dep : ∀ (l : List String) (fi : FlightInfo),
    (l.foldl priceElemStep fi).departure_time = fi.departure_time := by
  intro l
  induction l with
  | nil => intro fi; rfl
  | cons a l ih => intro fi; rw [List.foldl_cons, ih, priceElemStep_dep]

theorem foldlPrice_arr : ∀ (l : List String) (fi : FlightInfo),
    (l.foldl priceElemStep fi).arrival_time = fi.arrival_time := by
  intro l
  induction l with
  | nil => intro fi; rfl
  | cons a l ih => intro fi; rw [List.foldl_cons, ih, priceElemStep_arr]

theorem foldlPrice_usd_keep : ∀ (l : List String) (fi : FlightInfo),
    pyFalsy fi.price_usd = false →
      (l.foldl priceElemStep fi).price_usd = fi.price_usd := by
  intro l
  induction l with
  | nil => intro fi _; rfl
  | cons a l ih =>
    intro fi h
    rw [List.foldl_cons,
      ih _ (by rw [priceElemStep_usd_keep fi a h]; exact h),
      priceElemStep_usd_keep fi a h]

theorem applyPriceSubs_direction (c : Card) (fi : FlightInfo) :
    (applyPriceSubs c fi).direction = fi.direction := by
  unfold applyPriceSubs
  generalize priceSelectors = sels
  induction sels generalizing fi with
  | nil => rfl
  | cons s rest ih => rw [List.foldl_cons, ih, foldlPrice_direction]

theorem applyPriceSubs_dep (c : Card) (fi : FlightInfo) :
    (applyPriceSubs c fi).departure_time = fi.departure_time := by
  unfold applyPriceSubs
  generalize priceSelectors = sels
  induction sels generalizing fi with
  | nil => rfl
  | cons s rest ih => rw [List.foldl_cons, ih, foldlPrice_dep]

theorem applyPriceSubs_arr (c : Card) (fi : FlightInfo) :
    (applyPriceSubs c fi).arrival_time = fi.arrival_time := by
  unfold applyPriceSubs
  generalize priceSelectors = sels
  induction sels generalizing fi with
  | nil => rfl
  | cons s rest ih => rw [List.foldl_cons, ih, foldlPrice_arr]

theorem applyPriceSubs_usd_keep (c : Card) (fi : FlightInfo)
    (h : pyFalsy fi.price_usd = false) :
    (applyPriceSubs c fi).price_usd = fi.price_usd := by
  unfold applyPriceSubs
  generalize priceSelectors = sels
  induction sels generalizing fi with
  | nil => rfl
  | cons s rest ih =>
    rw [List.foldl_cons,
      ih _ (by rw [foldlPrice_usd_keep _ fi h]; exact h),
      foldlPrice_usd_keep _ fi h]

theorem applyTimeSubs_direction (c : Card) (fi : FlightInfo) :
    (applyTimeSubs c fi).direction = fi.direction := by
  unfold applyTimeSubs
  split <;> rfl

theorem applyTimeSubs_usd (c : Card) (fi : FlightInfo) :
    (applyTimeSubs c fi).price_usd = fi.price_usd := by
  unfold applyTimeSubs
  split <;> rfl

theorem applyTimeSubs_of_some (c : Card) (fi : FlightInfo) (da : String × String)
    (h : timeSelCascade c timeSelectors = some da) :
    (applyTimeSubs c fi).departure_time = some da.1
      ∧ (applyTimeSubs c fi).arrival_time = some da.2 := by
  unfold applyTimeSubs
  rw [h]
  exact ⟨rfl, rfl⟩

theorem applyTimeSubs_of_none (c : Card) (fi : FlightInfo)
    (h : timeSelCascade c timeSelectors = none) :
    (applyTimeSubs c fi).departure_time = fi.departure_time
      ∧ (applyTimeSubs c fi).arrival_time = fi.arrival_time := by
  unfold applyTimeSubs
  rw [h]
  exact ⟨rfl, rfl⟩

/-- Every record leaves `_parse_flight_card_flexible` with the direction it
was called with. -/
theorem parse_direction (c : Card) (d : String) :
    (parseFlightCardFlexible c d).direction = d := by
  unfold parseFlightCardFlexible
  rw [applyPriceSubs_direction, applyTimeSubs_direction]
  rfl

/-- If no time sub-selector returns two or more elements, the cascade finds
nothing. -/
theorem timeSelCascade_none (c : Card) :
    ∀ sels : List String, (∀ s ∈ sels, (findElems c s).length < 2) →
      timeSelCascade c sels = none := by
  intro sels
  induction sels with
  | nil => intro _; rfl
  | cons s rest ih =>
    intro h
    have hs := h s (List.mem_cons_self s rest)
    have hrest : ∀ t ∈ rest, (findElems c t).length < 2 :=
      fun t ht => h t (List.mem_cons_of_mem s ht)
    unfold timeSelCascade
    rcases he : findElems c s with _ | ⟨e1, tl1⟩
    · exact ih hrest
    · rcases tl1 with _ | ⟨e2, tl2⟩
      · exact ih hrest
      · rw [he] at hs
        simp at hs
        omega

theorem usdMatchAt_ne_nil (cs m r : List Char)
    (h : usdMatchAt cs = some (m, r)) : m ≠ [] := by
  match cs with
  | [] => simp [usdMatchAt] at h
  | c :: rest =>
    simp only [usdMatchAt] at h
    repeat' split at h
    all_goals try simp_all
    all_goals (obtain ⟨h1, -⟩ := h; rw [← h1]; simp)

theorem scanAllFuel_usd_ne_nil : ∀ (fuel : Nat) (s : List Char) (m : List Char),
    m ∈ scanAllFuel usdMatchAt fuel s → m ≠ [] := by
  intro fuel
  induction fuel with
  | zero => intro s m hm; simp [scanAllFuel] at hm
  | succ n ih =>
    intro s m hm
    match s with
    | [] => simp [scanAllFuel] at hm
    | c :: rest =>
      rw [scanAllFuel] at hm
      rcases hmt : usdMatchAt (c :: rest) with _ | ⟨m2, r⟩
      · rw [hmt] at hm
        exact ih rest m hm
      · rw [hmt] at hm
        rcases List.mem_cons.mp hm with h1 | h2
        · subst h1
          exact usdMatchAt_ne_nil _ _ _ hmt
        · exact ih r m h2

/-- The first textual USD price match of a card is a non-empty string. -/
theorem findallUsd_head_ne_empty (t p : String) (ps : List String)
    (h : findallUsd t = p :: ps) : p.isEmpty = false := by
  unfold findallUsd scanAll at h
  rcases hs : scanAllFuel usdMatchAt t.toList.length t.toList with _ | ⟨m, ms⟩
  · rw [hs] at h
    simp at h
  · rw [hs] at h
    simp only [List.map_cons, List.cons.injEq] at h
    have hm : m ≠ [] := scanAllFuel_usd_ne_nil _ _ m (by rw [hs]; exact List.mem_cons_self m ms)
    rw [← h.1]
    cases m with
    | nil => exact absurd rfl hm
    | cons a as =>
      rw [Bool.eq_false_iff]
      intro htrue
      rw [String.isEmpty_iff] at htrue
      have hd := congrArg String.data htrue
      simp at hd

theorem fallbackBuild_total (prices times : List String) :
    (fallbackBuild prices times).1.length + (fallbackBuild prices times).2.length
      = min prices.length (times.length / 2) := by
  unfold fallbackBuild
  simp only [List.length_map]
  rw [filterLengthSplit]
  exact List.length_range _

theorem fallbackBuilt_total (nodes : List String) :
    (fallbackBuilt nodes).1.length + (fallbackBuilt nodes).2.length
      = min (fallbackPrices nodes).length ((fallbackTimes nodes).length / 2) := by
  unfold fallbackBuilt
  split
  · exact fallbackBuild_total _ _
  · rename_i hcond
    simp only [Bool.and_eq_true, Bool.not_eq_true', not_and_or] at hcond
    rcases hcond with hp | ht
    · rw [Bool.not_eq_false] at hp
      rw [List.isEmpty_iff] at hp
      simp [hp]
    · rw [Bool.not_eq_false] at ht
      rw [List.isEmpty_iff] at ht
      simp [ht]

theorem fallbackHasData_iff (nodes : List String) :
    fallbackHasData nodes = true ↔
      min (fallbackPrices nodes).length ((fallbackTimes nodes).length / 2) ≠ 0 := by
  unfold fallbackHasData
  rw [← fallbackBuilt_total nodes]
  rw [Bool.or_eq_true, Bool.not_eq_true', Bool.not_eq_true']
  rw [isEmptyFalseIff, isEmptyFalseIff]
  omega

theorem parseHtml_none_iff (nodes : List String) (now : String) :
    parseHtmlContent nodes now = none ↔
      min (fallbackPrices nodes).length ((fallbackTimes nodes).length / 2) = 0 := by
  unfold parseHtmlContent
  cases h : fallbackHasData nodes
  · have hmin : min (fallbackPrices nodes).length
        ((fallbackTimes nodes).length / 2) = 0 := by
      by_contra hne
      have hdata := (fallbackHasData_iff nodes).mpr hne
      rw [h] at hdata
      exact absurd hdata (by simp)
    simp [hmin]
  · have hmin := (fallbackHasData_iff nodes).mp h
    simp [hmin]

theorem parseHtml_total (nodes : List String) (now : String) :
    (parseHtmlContent nodes now).map (fun r => r.outbound.length + r.ret.length)
      = if min (fallbackPrices nodes).length ((fallbackTimes nodes).length / 2) = 0
        then none
        else some (min (fallbackPrices nodes).length
          ((fallbackTimes nodes).length / 2)) := by
  unfold parseHtmlContent
  cases h : fallbackHasData nodes
  · have hmin : min (fallbackPrices nodes).length
        ((fallbackTimes nodes).length / 2) = 0 := by
      by_contra hne
      have hdata := (fallbackHasData_iff nodes).mpr hne
      rw [h] at hdata
      exact absurd hdata (by simp)
    simp [hmin]
  · have hmin := (fallbackHasData_iff nodes).mp h
    simp only [if_pos rfl, if_neg hmin, Option.map_some']
    rw [← fallbackBuilt_total nodes]
    rfl

theorem parseHtml_method (nodes : List String) (now : String)
    (r : FallbackResult) (h : parseHtmlContent nodes now = some r) :
    r.method = "requests_fallback" := by
  unfold parseHtmlContent at h
  split at h
  · injection h with h2
    rw [← h2]
    rfl
  · exact absurd h (by simp)

theorem fallbackBuild_dir_out (prices times : List String) (r : FallbackFlight)
    (h : r ∈ (fallbackBuild prices times).1) : r.direction = "outbound" := by
  unfold fallbackBuild at h
  simp only [List.mem_map] at h
  obtain ⟨i, hi, hr⟩ := h
  rw [List.mem_filter] at hi
  rw [← hr]
  unfold fallbackFlightAt
  exact if_pos (of_decide_eq_true hi.2)

theorem fallbackBuild_dir_ret (prices times : List String) (r : FallbackFlight)
    (h : r ∈ (fallbackBuild prices times).2) : r.direction = "return" := by
  unfold fallbackBuild at h
  simp only [List.mem_map] at h
  obtain ⟨i, hi, hr⟩ := h
  rw [List.mem_filter] at hi
  rw [← hr]
  unfold fallbackFlightAt
  have hnot : ¬ i < prices.length / 2 := by
    have := hi.2
    rw [Bool.not_eq_true'] at this
    exact of_decide_eq_false this
  exact if_neg hnot

theorem fallbackBuilt_dir_out (nodes : List String) (r : FallbackFlight)
    (h : r ∈ (fallbackBuilt nodes).1) : r.direction = "outbound" := by
  unfold fallbackBuilt at h
  split at h
  · exact fallbackBuild_dir_out _ _ _ h
  · simp at h

theorem fallbackBuilt_dir_ret (nodes : List String) (r : FallbackFlight)
    (h : r ∈ (fallbackBuilt nodes).2) : r.direction = "return" := by
  unfold fallbackBuilt at h
  split at h
  · exact fallbackBuild_dir_ret _ _ _ h
  · simp at h

/-- The selector cascade of `_extract_flight_data`: either every selector
matches nothing, or the result is exactly the match list of the first
selector that matches at least one element. -/
theorem selectFirst_spec (p : Page) : ∀ sels : List String,
    ((∀ s ∈ sels, findCards p s = []) ∧ selectFirst p sels = [])
    ∨ (∃ pre s post, sels = pre ++ s :: post
        ∧ (∀ t ∈ pre, findCards p t = [])
        ∧ findCards p s ≠ []
        ∧ selectFirst p sels = findCards p s) := by
  intro sels
  induction sels with
  | nil => exact Or.inl ⟨by simp, rfl⟩
  | cons s rest ih =>
    cases he : findCards p s with
    | nil =>
      have hstep : selectFirst p (s :: rest) = selectFirst p rest := by
        rw [selectFirst, he]
        simp
      rcases ih with ⟨hall, hempty⟩ | ⟨pre, s0, post, heq, hpre, hne, hval⟩
      · refine Or.inl ⟨?_, by rw [hstep]; exact hempty⟩
        intro t ht
        rcases List.mem_cons.mp ht with h1 | h2
        · rw [h1]; exact he
        · exact hall t h2
      · refine Or.inr ⟨s :: pre, s0, post, by rw [heq]; rfl, ?_, hne,
          by rw [hstep]; exact hval⟩
        intro t ht
        rcases List.mem_cons.mp ht with h1 | h2
        · rw [h1]; exact he
        · exact hpre t h2
    | cons e es =>
      refine Or.inr ⟨[], s, rest, rfl, by simp, by rw [he]; simp, ?_⟩
      rw [selectFirst, he]
      simp

theorem extract_empty (p : Page) (now : String)
    (h : selectFirst p flightCardSelectors = []) :
    extractFlightData p now
      = { outbound := [], ret := [], search_date := now, route := "SFO-LAX",
          method := none } := by
  unfold extractFlightData
  rw [h]
  rfl

/-! ### Claim theorems -/

/-- Claim C1, counterexample: with browser acquisition failed and an HTTP 200
response whose content has no extractable data, `search_flights` hands the
caller Python `None`, not a SearchResult with empty sequences. -/
theorem c1_counterexample :
    searchFlights false pageEmpty (FetchOutcome.ok ["hello world"]) "t"
      = SearchOutcome.noData := by rfl

/-- Claim C1, amended: the browser-path extraction always returns a
SearchResult (possibly with empty sequences) and never raises, but the
requests fallback returns None on a non-200 status, on its own errors, and
exactly when its HTML parse constructs no records (in particular on malformed
or absent data), rather than an empty SearchResult. -/
theorem c1_amended :
    (∀ (p : Page) (f : FetchOutcome) (now : String),
        searchFlights true p f now
          = SearchOutcome.structured (extractFlightData p now))
    ∧ (∀ now : String,
        fallbackRequestsMethod FetchOutcome.httpError now = SearchOutcome.noData
        ∧ fallbackRequestsMethod FetchOutcome.exn now = SearchOutcome.noData)
    ∧ (∀ (nodes : List String) (now : String),
        parseHtmlContent nodes now = none
          ↔ min (fallbackPrices nodes).length
              ((fallbackTimes nodes).length / 2) = 0) :=
  ⟨fun _ _ _ => rfl, fun _ => ⟨rfl, rfl⟩,
   fun nodes now => parseHtml_none_iff nodes now⟩

/-- Claim C2, counterexample: a fallback input with 21 price nodes and 42
time nodes produces 21 records, exceeding the claimed cap of 20. -/
theorem c2_counterexample :
    (parseHtmlContent nodesBig "t").map
        (fun r => r.outbound.length + r.ret.length) = some 21 := by decide

/-- Claim C2, amended: the structural path caps the total number of records
at 20, but the fallback text-pattern path produces
`min(#priceNodes, #timeNodes / 2)` records, which is not capped. -/
theorem c2_amended :
    (∀ (p : Page) (now : String),
        (extractFlightData p now).outbound.length
          + (extractFlightData p now).ret.length ≤ 20)
    ∧ (∀ (nodes : List String) (now : String),
        (parseHtmlContent nodes now).map
            (fun r => r.outbound.length + r.ret.length)
          = if min (fallbackPrices nodes).length
                ((fallbackTimes nodes).length / 2) = 0
            then none
            else some (min (fallbackPrices nodes).length
              ((fallbackTimes nodes).length / 2))) := by
  constructor
  · intro p now
    rw [extract_outbound, extract_ret]
    simp only [List.length_map, List.length_take, List.length_drop]
    omega
  · intro nodes now
    exact parseHtml_total nodes now

/-- Claim C3, counterexample: with exactly 10 matched candidate cards, all 10
are classified outbound and none return, not a 5/5 split. -/
theorem c3_counterexample :
    (extractFlightData page10 "t").outbound.length = 10
    ∧ (extractFlightData page10 "t").ret.length = 0 := by decide

/-- Claim C3, amended: on the structural path the split is at the fixed
absolute index 10, not at half the match count: of the first 20 matched
cards, those at indices 0-9 are classified outbound and those at indices
10-19 return; in particular with exactly 10 matched cards all 10 are
outbound. -/
theorem c3_amended (p : Page) (now : String) :
    (extractFlightData p now).outbound
      = (((selectFirst p flightCardSelectors).take 20).take 10).map
          (fun c => parseFlightCardFlexible c "outbound")
    ∧ (extractFlightData p now).ret
      = (((selectFirst p flightCardSelectors).take 20).drop 10).map
          (fun c => parseFlightCardFlexible c "return") :=
  ⟨extract_outbound p now, extract_ret p now⟩

/-- Claim C4, counterexample: two extraction runs over the same static input
at different invocation times yield different SearchResult content, because
`search_date` records `datetime.now()`. -/
theorem c4_counterexample :
    extractFlightData pageEmpty "2024-01-01T00:00:00"
      ≠ extractFlightData pageEmpty "2024-01-02T00:00:00" := by decide

/-- Claim C4, amended: extraction is a pure function of the input content and
the invocation time: two runs over identical static input agree on outbound,
return, route and extraction-method content, while `searchTimestamp` equals
each run's own invocation time (so runs at different times differ exactly
there). -/
theorem c4_amended :
    (∀ (p : Page) (t1 t2 : String),
        (extractFlightData p t1).outbound = (extractFlightData p t2).outbound
        ∧ (extractFlightData p t1).ret = (extractFlightData p t2).ret
        ∧ (extractFlightData p t1).route = (extractFlightData p t2).route
        ∧ (extractFlightData p t1).method = (extractFlightData p t2).method
        ∧ (extractFlightData p t1).search_date = t1)
    ∧ (∀ (nodes : List String) (t1 t2 : String),
        (parseHtmlContent nodes t1).map
            (fun r => (r.outbound, r.ret, r.route, r.method, r.raw_prices,
              r.raw_times, r.raw_flight_numbers))
          = (parseHtmlContent nodes t2).map
            (fun r => (r.outbound, r.ret, r.route, r.method, r.raw_prices,
              r.raw_times, r.raw_flight_numbers))
        ∧ (parseHtmlContent nodes t1).map (fun r => r.search_date)
            = (parseHtmlContent nodes t1).map (fun _ => t1)) := by
  constructor
  · intro p t1 t2
    exact ⟨rfl, rfl, rfl, rfl, rfl⟩
  · intro nodes t1 t2
    constructor
    · unfold parseHtmlContent
      cases h : fallbackHasData nodes <;> simp [mkFallbackResult]
    · unfold parseHtmlContent
      cases h : fallbackHasData nodes <;> simp [mkFallbackResult]

/-- Claim C5, counterexample: on a card whose dedicated price element holds
"$999" while the whole-card text matches "$245", the record keeps the
textual-pattern value "$245" — the structural sub-selector is not preferred
for the price field. -/
theorem c5_counterexample :
    findElems cardW5 ".price" = ["$999"]
    ∧ findallUsd cardW5.text = ["$245"]
    ∧ (parseFlightCardFlexible cardW5 "outbound").price_usd = some "$245" :=
  ⟨rfl, rfl, rfl⟩

/-- Claim C5, amended: the preference is not uniform across fields.  For time
fields, a time sub-selector returning two or more elements overwrites the
textual-pattern values; for price fields, the textual-pattern match is kept
and the structural price element fills the field only when the textual
pattern found nothing. -/
theorem c5_amended (c : Card) (d : String) :
    (∀ da : String × String, timeSelCascade c timeSelectors = some da →
        (parseFlightCardFlexible c d).departure_time = some da.1
        ∧ (parseFlightCardFlexible c d).arrival_time = some da.2)
    ∧ (∀ (p : String) (ps : List String), findallUsd c.text = p :: ps →
        (parseFlightCardFlexible c d).price_usd = some p) := by
  constructor
  · intro da h
    unfold parseFlightCardFlexible
    rw [applyPriceSubs_dep, applyPriceSubs_arr]
    exact applyTimeSubs_of_some c _ da h
  · intro p ps h
    unfold parseFlightCardFlexible
    have hne : pyFalsy (some p) = false := by
      unfold pyFalsy
      exact findallUsd_head_ne_empty c.text p ps h
    have htex : (textualPass c d).price_usd = some p := by
      simp [textualPass, h]
    have hmid : (applyTimeSubs c (textualPass c d)).price_usd = some p := by
      rw [applyTimeSubs_usd, htex]
    rw [applyPriceSubs_usd_keep _ _ (by rw [hmid]; exact hne), hmid]

/-- Claim C5, witness: a concrete card where both the structural time
sub-selector (two elements) and the textual patterns fire; the record takes
the stripped structural times and the textual price. -/
theorem c5_witness :
    (parseFlightCardFlexible cardW5 "outbound").departure_time = some "3:00"
    ∧ (parseFlightCardFlexible cardW5 "outbound").arrival_time = some "4:00"
    ∧ (parseFlightCardFlexible cardW5 "outbound").price_usd = some "$245" :=
  ⟨((c5_amended cardW5 "outbound").1 ("3:00", "4:00") (by rfl)).1,
   ((c5_amended cardW5 "outbound").1 ("3:00", "4:00") (by rfl)).2,
   (c5_amended cardW5 "outbound").2 "$245" [] (by rfl)⟩

/-- Claim C6, counterexample: on a page where the structural selector cascade
matches zero elements but browser acquisition succeeded, the caller receives
the structural-path SearchResult (empty sequences, no method marker), not a
result of the textual fallback with `extractionMethod = fallback-html-parse`. -/
theorem c6_counterexample :
    selectFirst pageEmpty flightCardSelectors = []
    ∧ searchFlights true pageEmpty (FetchOutcome.ok []) "t"
        = SearchOutcome.structured
            { outbound := [], ret := [], search_date := "t",
              route := "SFO-LAX", method := none } :=
  ⟨rfl, rfl⟩

/-- Claim C6, amended: the whole-document textual fallback runs only when
browser acquisition fails, never because the selector cascade matched zero
elements: on the browser path a zero-match cascade yields an empty
SearchResult with no method marker, and when the fallback parser does return
a result its method field equals `requests_fallback`. -/
theorem c6_amended :
    (∀ (p : Page) (f : FetchOutcome) (now : String),
        searchFlights true p f now
          = SearchOutcome.structured (extractFlightData p now))
    ∧ (∀ (p : Page) (now : String), selectFirst p flightCardSelectors = [] →
        extractFlightData p now
          = { outbound := [], ret := [], search_date := now,
              route := "SFO-LAX", method := none })
    ∧ (∀ (nodes : List String) (now : String) (r : FallbackResult),
        parseHtmlContent nodes now = some r →
          r.method = "requests_fallback") :=
  ⟨fun _ _ _ => rfl, fun p now h => extract_empty p now h,
   fun nodes now r h => parseHtml_method nodes now r h⟩

/-- Claim C6, witness: concrete instances for both implications of the
amended claim. -/
theorem c6_witness :
    extractFlightData pageEmpty "t"
      = { outbound := [], ret := [], search_date := "t", route := "SFO-LAX",
          method := none }
    ∧ (mkFallbackResult nodesSmall "t").method = "requests_fallback" :=
  ⟨c6_amended.2.1 pageEmpty "t" rfl,
   c6_amended.2.2 nodesSmall "t" (mkFallbackResult nodesSmall "t") (by rfl)⟩

/-- Claim C7: on the structural path, the card text
"6:00 AM 9:15 AM $245 UA 123 Nonstop" yields exactly one record, with
departure 6:00 AM, arrival 9:15 AM, price $245, flight number UA 123 and
nonstop stops. -/
theorem c7_extraction :
    (extractFlightData pageC7 "t").outbound
      = [{ direction := "outbound", airline := "United Airlines",
           departure_time := some "6:00 AM", arrival_time := some "9:15 AM",
           duration := some "6:00", stops := some "Nonstop",
           price_usd := some "$245", price_miles := none, cabin_class := none,
           flight_number := some "UA 123",
           raw_text := "6:00 AM 9:15 AM $245 UA 123 Nonstop" }]
    ∧ (extractFlightData pageC7 "t").ret = [] := by
  constructor <;> rfl

/-- Claim C8: the structural cascade uses exactly the matches of the first
selector yielding at least one match (all earlier selectors matched
nothing), and both record sequences are assembled exclusively from that one
selector's matches — matches of different selectors are never merged. -/
theorem c8_selector_cascade (p : Page) (now : String) :
    (((∀ s ∈ flightCardSelectors, findCards p s = [])
        ∧ selectFirst p flightCardSelectors = [])
      ∨ (∃ pre s post, flightCardSelectors = pre ++ s :: post
          ∧ (∀ t ∈ pre, findCards p t = [])
          ∧ findCards p s ≠ []
          ∧ selectFirst p flightCardSelectors = findCards p s))
    ∧ (extractFlightData p now).outbound
        = (((selectFirst p flightCardSelectors).take 20).take 10).map
            (fun c => parseFlightCardFlexible c "outbound")
    ∧ (extractFlightData p now).ret
        = (((selectFirst p flightCardSelectors).take 20).drop 10).map
            (fun c => parseFlightCardFlexible c "return") :=
  ⟨selectFirst_spec p flightCardSelectors, extract_outbound p now,
   extract_ret p now⟩

/-- Claim C9: every record appended to the outbound sequence carries
direction outbound and every record appended to the return sequence carries
direction return, on both the structural path and the fallback path. -/
theorem c9_direction_consistent :
    (∀ (p : Page) (now : String) (r : FlightInfo),
        (r ∈ (extractFlightData p now).outbound → r.direction = "outbound")
        ∧ (r ∈ (extractFlightData p now).ret → r.direction = "return"))
    ∧ (∀ (nodes : List String) (now : String) (fr : FallbackResult)
        (r : FallbackFlight), parseHtmlContent nodes now = some fr →
        (r ∈ fr.outbound → r.direction = "outbound")
        ∧ (r ∈ fr.ret → r.direction = "return")) := by
  constructor
  · intro p now r
    constructor
    · intro hm
      rw [extract_outbound] at hm
      obtain ⟨c, -, hc⟩ := List.mem_map.mp hm
      rw [← hc]
      exact parse_direction c "outbound"
    · intro hm
      rw [extract_ret] at hm
      obtain ⟨c, -, hc⟩ := List.mem_map.mp hm
      rw [← hc]
      exact parse_direction c "return"
  · intro nodes now fr r hparse
    have hfr : fr = mkFallbackResult nodes now := by
      unfold parseHtmlContent at hparse
      split at hparse
      · injection hparse with h2
        exact h2.symm
      · exact absurd hparse (by simp)
    subst hfr
    exact ⟨fun hm => fallbackBuilt_dir_out nodes r hm,
           fun hm => fallbackBuilt_dir_ret nodes r hm⟩

/-- Claim C9, witness: concrete records on all four sides (structural
outbound and return, fallback outbound and return). -/
theorem c9_witness :
    (parseFlightCardFlexible card0 "outbound").direction = "outbound"
    ∧ (parseFlightCardFlexible card0 "return").direction = "return"
    ∧ (fallbackFlightAt ["$5", "$6"] ["1:23", "4:56"] 0).direction = "outbound"
    ∧ (fallbackFlightAt ["$5"] ["1:23", "4:56"] 0).direction = "return" :=
  ⟨(c9_direction_consistent.1 page11 "t"
      (parseFlightCardFlexible card0 "outbound")).1 (by decide),
   (c9_direction_consistent.1 page11 "t"
      (parseFlightCardFlexible card0 "return")).2 (by decide),
   (c9_direction_consistent.2 nodesOut "t" (mkFallbackResult nodesOut "t")
      (fallbackFlightAt ["$5", "$6"] ["1:23", "4:56"] 0) (by rfl)).1 (by decide),
   (c9_direction_consistent.2 nodesSmall "t" (mkFallbackResult nodesSmall "t")
      (fallbackFlightAt ["$5"] ["1:23", "4:56"] 0) (by rfl)).2 (by decide)⟩

/-- Claim C10: on the structural path, when the card text matches the time
pattern exactly once and no time sub-selector returns two or more elements,
both time fields of the record are absent — the single matched time is
discarded, not assigned to departure alone. -/
theorem c10_single_time_discarded (c : Card) (d : String)
    (h1 : (findallTimes c.text).length = 1)
    (h2 : timeSelectors.all
        (fun s => decide ((findElems c s).length < 2)) = true) :
    (parseFlightCardFlexible c d).departure_time = none
    ∧ (parseFlightCardFlexible c d).arrival_time = none := by
  have h2' : ∀ s ∈ timeSelectors, (findElems c s).length < 2 := by
    intro s hs
    exact of_decide_eq_true (List.all_eq_true.mp h2 s hs)
  have hcas := timeSelCascade_none c timeSelectors h2'
  have htex_dep : (textualPass c d).departure_time = none := by
    simp [textualPass, h1]
  have htex_arr : (textualPass c d).arrival_time = none := by
    simp [textualPass, h1]
  unfold parseFlightCardFlexible
  rw [applyPriceSubs_dep, applyPriceSubs_arr]
  have hsub := applyTimeSubs_of_none c (textualPass c d) hcas
  rw [hsub.1, hsub.2, htex_dep, htex_arr]
  exact ⟨rfl, rfl⟩

/-- Claim C10, witness: a concrete card whose text holds exactly one time
and which has no sub-elements; both time fields come out absent. -/
theorem c10_witness :
    findallTimes cardW10.text = ["9:15 AM"]
    ∧ (parseFlightCardFlexible cardW10 "outbound").departure_time = none
    ∧ (parseFlightCardFlexible cardW10 "outbound").arrival_time = none :=
  ⟨rfl,
   (c10_single_time_discarded cardW10 "outbound" (by rfl) (by rfl)).1,
   (c10_single_time_discarded cardW10 "outbound" (by rfl) (by rfl)).2⟩

end UnitedData
